import Mathlib

/-!
Verification of the imgr-serve image proxy against its specification.

The development shallowly embeds the parts of the Rust source that the
checked properties speak about:

* the derivative (processed-image) cache with its per-image admission
  policy (`src/store/processed_cache.rs`, `src/store/processed_memory_cache.rs`),
* the persistent variant of that cache and the persistent key-value store
  (`src/store/procesessed_persistent_cache.rs`, `src/store/persistent_store.rs`,
  `src/storage.rs`),
* the processor's `get`/`prefetch` flows (`src/processing.rs`),
* cache construction in `Config::from_env` (`src/config.rs`),
* the resize dimension arithmetic (`src/image_processing.rs`), and
* the preload handler's api-key gate (`src/routes/images.rs`, `src/main.rs`).

Rust maps (`quick_cache`, engine keyspaces) are modelled as functions into
`Option`, `BTreeSet` as `Finset` over a linearly ordered parameter type,
fallible operations as `Except`, and a Rust `unwrap` panic as an explicit
`RustOutcome.panicked` value.
-/

/-- Image identifier (`src/utils/types.rs`: `pub type ImageId = String`). -/
abbrev ImageId := String

/-- Overflow policy for per-image variant admission
(`src/config.rs`, `enum ImageOptionsOverflowPolicy`). -/
inductive ImageOptionsOverflowPolicy
  | Restrict
  | Rewrite
deriving DecidableEq

/-- State of `MemoryProcessedImageCache` (`src/store/processed_memory_cache.rs`).
`cache` models the `quick_cache` map `(ImageId, ProcessingParams) -> ImageContainer`,
`cache_entries` the map `ImageId -> BTreeSet<ProcessingParams>`.  The concrete
`ProcessingParams` type lives in the (absent) `image_ops/operations.rs`; the model
is generic over a linearly ordered parameter type `P` (the `BTreeSet` canonical
order) and a payload type `V`. -/
structure MemoryProcessedImageCache (P V : Type) where
  cache : ImageId × P → Option V
  cache_entries : ImageId → Option (Finset P)
  max_options_per_image : ℕ
  max_options_per_image_overflow_policy : ImageOptionsOverflowPolicy

namespace MemoryProcessedImageCache

variable {P V : Type} [LinearOrder P]

/-- `self.cache_entries.get(image_id).unwrap_or_else(|| BTreeSet::new())`. -/
def getEntries (s : MemoryProcessedImageCache P V) (image_id : ImageId) : Finset P :=
  (s.cache_entries image_id).getD ∅

/-- `MemoryProcessedImageCache::records_count`. -/
def records_count (s : MemoryProcessedImageCache P V) (image_id : ImageId) : ℕ :=
  (s.getEntries image_id).card

/-- `MemoryProcessedImageCache::have_record`:
`self.cache.contains_key(&(image_id.clone(), params.clone()))`. -/
def have_record (s : MemoryProcessedImageCache P V) (image_id : ImageId) (params : P) : Bool :=
  (s.cache (image_id, params)).isSome

/-- `MemoryProcessedImageCache::_insert`: load the entry set, on `pop_last`
(and a non-empty set) pop the greatest param (`BTreeSet::pop_last`) and drop
its payload, then record the new param and payload. -/
def _insert (s : MemoryProcessedImageCache P V) (image_id : ImageId) (params : P)
    (image : V) (pop_last : Bool) : MemoryProcessedImageCache P V :=
  let entries := s.getEntries image_id
  let popped : Finset P × (ImageId × P → Option V) :=
    if h : pop_last = true ∧ 0 < entries.card then
      let last_param := entries.max' (Finset.card_pos.mp h.2)
      (entries.erase last_param,
        fun k => if k = (image_id, last_param) then none else s.cache k)
    else
      (entries, s.cache)
  { s with
    cache := fun k => if k = (image_id, params) then some image else popped.2 k
    cache_entries := fun i =>
      if i = image_id then some (insert params popped.1) else s.cache_entries i }

/-- `ProcessedImagesCache::set` (default trait method,
`src/store/processed_cache.rs` lines 45-84), specialized to the memory
implementation.  The per-cache mutex guards the whole body; the model is the
body run atomically.  The error string is the literal from the source. -/
def set (s : MemoryProcessedImageCache P V) (image_id : ImageId) (params : P)
    (image : V) : Except String Unit × MemoryProcessedImageCache P V :=
  let rc := s.records_count image_id
  match s.have_record image_id params with
  | false =>
    if rc ≥ s.max_options_per_image then
      match s.max_options_per_image_overflow_policy with
      | ImageOptionsOverflowPolicy.Restrict =>
        (Except.error "Limit exceed. No any new image formats allowed", s)
      | ImageOptionsOverflowPolicy.Rewrite =>
        (Except.ok (), s._insert image_id params image true)
    else
      (Except.ok (), s._insert image_id params image false)
  | true => (Except.ok (), s)

/-- `MemoryProcessedImageCache::remove`: drop every `(image_id, p)` payload and
the whole entry set of that id. -/
def remove (s : MemoryProcessedImageCache P V) (image_id : ImageId) :
    MemoryProcessedImageCache P V :=
  { s with
    cache := fun k => if k.1 = image_id then none else s.cache k
    cache_entries := fun i => if i = image_id then none else s.cache_entries i }

end MemoryProcessedImageCache

/-- The three keyspaces of `PersistentStore` (`src/store/persistent_store.rs`),
each a key-to-value map; `C` values live in `cache`, `E` values in
`cache_entries`, `B` values in `storage`.  Every operation passes its key
through `postcard::to_stdvec`, so the engine maps are keyed by the serialized
byte sequences (bytes as naturals). -/
structure PersistentStoreState (B C E : Type) where
  storage_keyspace : List ℕ → Option B
  cache_keyspace : List ℕ → Option C
  cache_entries_keyspace : List ℕ → Option E

/-- Text pre-segment test on strings, via their character lists (semantics of
`str::starts_with`); used to state properties about textual key layout. -/
def strIsPref (pre s : String) : Bool :=
  pre.data.isPrefixOf s.data

/-- Little-endian base-128 varint encoding of a length, as used by postcard
for the length prefix of a serialized `String`.  The first argument is
recursion fuel, always instantiated with the value itself, which suffices
because the value shrinks by a factor of 128 per emitted byte. -/
def postcardVarintAux : ℕ → ℕ → List ℕ
  | 0, n => [n % 128]
  | fuel + 1, n =>
    if n < 128 then [n] else (n % 128 + 128) :: postcardVarintAux fuel (n / 128)

/-- Postcard varint encoding of a length. -/
def postcardVarint (n : ℕ) : List ℕ :=
  postcardVarintAux n n

/-- UTF-8 encoding of one character, byte values as naturals. -/
def utf8CharBytes (c : Char) : List ℕ :=
  let n := c.toNat
  if n < 128 then [n]
  else if n < 2048 then [192 + n / 64, 128 + n % 64]
  else if n < 65536 then [224 + n / 4096, 128 + n / 64 % 64, 128 + n % 64]
  else [240 + n / 262144, 128 + n / 4096 % 64, 128 + n / 64 % 64, 128 + n % 64]

/-- UTF-8 bytes of a string. -/
def stringUtf8Bytes (s : String) : List ℕ :=
  s.data.flatMap utf8CharBytes

/-- `postcard::to_stdvec` of a `String` key: the varint byte length followed
by the UTF-8 bytes.  Both `PersistentStore::set` (line 130) and
`PersistentStore::remove_by_prefix` (line 144) serialize their key argument
this way before handing it to the engine. -/
def postcardStringBytes (s : String) : List ℕ :=
  postcardVarint (stringUtf8Bytes s).length ++ stringUtf8Bytes s

/-- `PersistentStore::remove_by_prefix` on one keyspace
(`src/store/persistent_store.rs` lines 138-153): the engine scans the stored
(serialized) keys that start with the given serialized-prefix bytes and
deletes each hit. -/
def removeByBytePref {C : Type} (m : List ℕ → Option C) (pre : List ℕ) :
    List ℕ → Option C :=
  fun k => if pre.isPrefixOf k then none else m k

/-- Derivative cache key (`src/store/procesessed_persistent_cache.rs`,
`cache_key`): the textual `"<id>_<json(params)>"`; the params serialization is
abstract (`pjson`), the code only relies on it starting with `"\x7b"`.  The
engine stores the payload under `postcardStringBytes` of this string. -/
def persistentCacheKey (image_id : ImageId) (pjson : String) : String :=
  image_id ++ "_" ++ pjson

/-- `PersistentProcessedImageCache::remove` (lines 133-139): a single
`remove_by_prefix(PersistSpace::Cache, "<id>_\x7b")` call - the prefix string
is postcard-serialized like any key - and no other keyspace is touched. -/
def persistentProcessedCacheRemove {B C E : Type} (s : PersistentStoreState B C E)
    (image_id : ImageId) : PersistentStoreState B C E :=
  { s with cache_keyspace :=
      removeByBytePref s.cache_keyspace (postcardStringBytes (image_id ++ "_\x7b")) }

/-- Outcome of running a piece of Rust code that may panic (`unwrap` on an
`Err`): either a panic aborting the caller, or a returned value. -/
inductive RustOutcome (α : Type)
  | panicked
  | ret (a : α)
deriving DecidableEq

/-- Rust `Result::unwrap`. -/
def unwrapResult {ε α : Type} : Except ε α → RustOutcome α
  | Except.error _ => RustOutcome.panicked
  | Except.ok a => RustOutcome.ret a

/-- `PersistentStore::get` (`src/store/persistent_store.rs` lines 100-110):
`keyspace.get(key).unwrap()` - the engine read result is the argument. -/
def persistentStoreGet {C : Type} (engine_read : Except String (Option C)) :
    RustOutcome (Option C) :=
  unwrapResult engine_read

/-- `PersistentStore::exists` (lines 112-122): `keyspace.contains_key(key).unwrap()`. -/
def persistentStoreExists (engine_read : Except String Bool) : RustOutcome Bool :=
  unwrapResult engine_read

/-- `PersistentStore::set` (lines 124-136): `keyspace.insert(key, value).unwrap()`. -/
def persistentStoreSet (engine_write : Except String Unit) : RustOutcome Unit :=
  unwrapResult engine_write

/-- `PersistentStore::remove` (lines 156-165): `let _ = keyspace.remove(key);` -
the engine error is dropped. -/
def persistentStoreRemove (_engine_write : Except String Unit) : RustOutcome Unit :=
  RustOutcome.ret ()

/-- `PersistentStorage::get` (`src/storage.rs` lines 108-115):
`self.keyspace.get(image_id.as_str()).ok().unwrap()`. -/
def persistentStorageGet {C : Type} (engine_read : Except String (Option C)) :
    RustOutcome (Option C) :=
  match engine_read with
  | Except.error _ => RustOutcome.panicked
  | Except.ok v => RustOutcome.ret v

/-- `PersistentStorage::set` (`src/storage.rs` lines 117-119):
`let _ = self.keyspace.insert(image_id, data);` - the engine error is dropped. -/
def persistentStorageSet (_engine_write : Except String Unit) : RustOutcome Unit :=
  RustOutcome.ret ()

/-- Error kinds of the processor (`src/processing.rs`, `ProcessingErrorType`). -/
inductive ProcessingErrorType
  | UnsupportingExtension
  | NotFound
  | FileApiError
deriving DecidableEq

/-- Upstream fetch error (`src/proxying_images.rs` shape used by `Processor::get`):
a reason plus an optional http status. -/
structure FileApiFetchError where
  reason : String
  http_error_code : Option ℕ

/-- Raw image bytes. -/
abbrev ImageBytes := List ℕ

/-- `Processor::get_image_format`: sniff the format from the bytes
(`imghdr::from_bytes` + `image_format()`, an external collaborator, hence a
parameter of the model). -/
def getImageFormat {F : Type} (sniff : ImageBytes → Option F) (data : ImageBytes) :
    Option F :=
  sniff data

/-- `Processor::ensure_correct_extension`: `UnsupportingExtension` iff the
sniff fails. -/
def ensureCorrectExtension {F : Type} (sniff : ImageBytes → Option F)
    (data : ImageBytes) : Option ProcessingErrorType :=
  if (getImageFormat sniff data).isNone then some ProcessingErrorType.UnsupportingExtension
  else none

/-- State the processor mutates: the original-bytes storage and the derivative
cache map (`src/processing.rs`, fields of `Processor`). -/
structure ProcessorState (P V : Type) where
  storage : ImageId → Option ImageBytes
  cache : ImageId × P → Option V

/-- `Processor::prefetch` (`src/processing.rs` lines 266-282): check the sniff,
then write the bytes into the original storage.  This is the whole body - in
particular no derivative-cache operation occurs. -/
def processorPrefetch {P V F : Type} (sniff : ImageBytes → Option F)
    (s : ProcessorState P V) (image_id : ImageId) (_filename : String)
    (data : ImageBytes) : Except ProcessingErrorType Unit × ProcessorState P V :=
  match ensureCorrectExtension sniff data with
  | some err => (Except.error err, s)
  | none =>
    (Except.ok (),
      { s with storage := fun i => if i = image_id then some data else s.storage i })

/-- `Processor::_process_image` result (`src/processing.rs` lines 194-264),
projected to the returned value: re-sniff, fail with `UnsupportingExtension`
when the sniff fails, otherwise decode/resize/encode (the external pipeline is
the parameter `processFn`).  The population of the derivative cache on success
is a side effect not visible in the returned value. -/
def processImageResult {P V F : Type} (sniff : ImageBytes → Option F)
    (processFn : ImageBytes → P → V) (original_image : ImageBytes) (params : P) :
    Except ProcessingErrorType V :=
  match sniff original_image with
  | none => Except.error ProcessingErrorType.UnsupportingExtension
  | some _ => Except.ok (processFn original_image params)

/-- `Processor::get` (`src/processing.rs` lines 85-188), projected to the
returned value: derivative-cache lookup, then original-storage lookup with a
sniff (a failed sniff logs a warning and falls through), then the upstream
file api (404 becomes NotFound, other errors FileApiError, success is
processed).  Writes into storage/cache on the way are side effects not visible
in the returned value. -/
def processorGet {P V F : Type} (sniff : ImageBytes → Option F)
    (processFn : ImageBytes → P → V) (cache : ImageId × P → Option V)
    (storage : ImageId → Option ImageBytes)
    (file_api : Option (ImageId → Except FileApiFetchError ImageBytes))
    (image_id : ImageId) (params : P) : Except ProcessingErrorType V :=
  match cache (image_id, params) with
  | some cached => Except.ok cached
  | none =>
    let processed_from_storage : Option (Except ProcessingErrorType V) :=
      match storage image_id with
      | none => none
      | some orig_image =>
        match sniff orig_image with
        | none => none
        | some _ => some (processImageResult sniff processFn orig_image params)
    match processed_from_storage with
    | some r => r
    | none =>
      match file_api with
      | none => Except.error ProcessingErrorType.NotFound
      | some fetch =>
        match fetch image_id with
        | Except.error err =>
          if err.http_error_code.getD 0 = 404 then
            Except.error ProcessingErrorType.NotFound
          else
            Except.error ProcessingErrorType.FileApiError
        | Except.ok orig_image => processImageResult sniff processFn orig_image params

/-- `MemoryProcessedImageCache::new` capacity choice
(`src/store/processed_memory_cache.rs` line 32):
`capacity.unwrap_or(NonZeroUsize::new(1024).unwrap())`. -/
def memoryProcessedImageCacheCapacity (capacity : Option ℕ) : ℕ :=
  capacity.getD 1024

/-- Capacity handed to the in-memory derivative cache by `Config::from_env`
(`src/config.rs` lines 225-236): `MemoryProcessedImageCache::new(Some(storage_size), ..)`
with `storage_size = env_conf.storage_cache_size` (line 174); the
`processing_cache_size` budget (`cache_size`, line 175) is not the one passed. -/
def configProcessingCacheCapacity (storage_cache_size _processing_cache_size : ℕ) : ℕ :=
  memoryProcessedImageCacheCapacity (some storage_cache_size)

/-- `RatioPolicy` (`src/image_processing.rs`). -/
inductive RatioPolicy
  | Resize
  | CropToCenter
deriving DecidableEq

/-- `f64::round(..) as u32` for the nonnegative quantities arising in `resize`:
round half away from zero, which for nonnegative input is the floor of
`q + 1/2`; the `as u32` cast sends negatives to 0 (`Int.toNat`). -/
def roundToU32 (q : ℚ) : ℕ :=
  (⌊q + 1 / 2⌋).toNat

/-- `f64::EPSILON`. -/
def f64Epsilon : ℚ := 1 / 2 ^ 52

/-- Output dimensions of the image crate's `crop(x, y, w, h)` (external
collaborator): the rectangle is clamped to the image bounds. -/
def cropOutputDims (img_w img_h x y w h : ℕ) : ℕ × ℕ :=
  (min w (img_w - min x img_w), min h (img_h - min y img_h))

/-- Cover size computed by the differing-ratio branch of `resize`
(`src/image_processing.rs` lines 71-83). -/
def coverSize (src_w src_h w h : ℕ) : ℕ × ℕ :=
  let orig_r : ℚ := (src_w : ℚ) / (src_h : ℚ)
  let target_r : ℚ := (w : ℚ) / (h : ℚ)
  if orig_r > target_r then (roundToU32 ((h : ℚ) * orig_r), h)
  else (w, roundToU32 ((w : ℚ) / orig_r))

/-- Center-crop offsets (`src/image_processing.rs` lines 89-90):
`(resize_w.saturating_sub(w)) / 2` and the same for the height; natural
subtraction is saturating. -/
def cropOffsets (cover : ℕ × ℕ) (w h : ℕ) : ℕ × ℕ :=
  ((cover.1 - w) / 2, (cover.2 - h) / 2)

/-- Dimension-level model of `resize` (`src/image_processing.rs` lines 32-102).
Pixel contents are outside the model; `fast_image_resize` always fills a
buffer of the destination dimensions, and `crop` clamps per `cropOutputDims`. -/
def resizeDims (src_w src_h : ℕ) (width height : Option ℕ)
    (ratio_policy : Option RatioPolicy) : ℕ × ℕ :=
  let w := width.getD src_w
  let h := height.getD src_h
  let rp := ratio_policy.getD RatioPolicy.CropToCenter
  let orig_r : ℚ := (src_w : ℚ) / (src_h : ℚ)
  let target_r : ℚ := (w : ℚ) / (h : ℚ)
  match rp with
  | RatioPolicy.Resize => (w, h)
  | RatioPolicy.CropToCenter =>
    if |orig_r - target_r| < f64Epsilon then (w, h)
    else
      let cover := coverSize src_w src_h w h
      let off := cropOffsets cover w h
      cropOutputDims cover.1 cover.2 off.1 off.2 w h

/-- Api-key extraction in `preload_image` (`src/routes/images.rs` lines 155-158,
identically `src/main.rs` lines 95-98): a missing `X-API-Key` header is
`String::new()`, a header value that fails `to_str` is `""` via `unwrap_or`.
`none` models an absent header, `some none` a present but undecodable value,
`some (some v)` a decodable one. -/
def extractApiKey (header : Option (Option String)) : String :=
  match header with
  | none => ""
  | some v => v.getD ""

/-- The preload auth gate (`src/routes/images.rs` line 159): the request
proceeds to prefetch iff the extracted key equals the configured `api_key`
(whose envconfig default in `src/config.rs` is the empty string). -/
def preloadAuthorized (header : Option (Option String)) (server_api_key : String) : Bool :=
  extractApiKey header == server_api_key

/-! Concrete fixtures used by witnesses and failing-input evaluations. -/

/-- Memory-cache fixture: image "a" has the single cached variant `0` (payload
`7`), `max_options_per_image = 1`, policy as given. -/
def memCacheEx (policy : ImageOptionsOverflowPolicy) : MemoryProcessedImageCache ℕ ℕ where
  cache := fun k => if k = ("a", 0) then some 7 else none
  cache_entries := fun i => if i = "a" then some {0} else none
  max_options_per_image := 1
  max_options_per_image_overflow_policy := policy

/-- Sniff that always fails (all bytes corrupted). -/
def sniffNoneEx : ImageBytes → Option ℕ := fun _ => none

/-- Sniff that always succeeds. -/
def sniffSomeEx : ImageBytes → Option ℕ := fun _ => some 0

/-- Trivial processing pipeline for fixtures. -/
def processFnEx : ImageBytes → ℕ → ℕ := fun _ _ => 0

/-- Empty derivative-cache lookup for fixtures. -/
def cacheEmptyEx : ImageId × ℕ → Option ℕ := fun _ => none

/-- Original storage holding (corrupted) bytes `[1]` for image "a". -/
def storageEx : ImageId → Option ImageBytes := fun i => if i = "a" then some [1] else none

/-- Processor-state fixture: empty original storage, derivative cache holding
the variant `("a", 0)` with payload `5`. -/
def prefetchStateEx : ProcessorState ℕ ℕ where
  storage := fun _ => none
  cache := fun k => if k = ("a", 0) then some 5 else none

/-- Persistent-store fixture: one derivative payload stored (as `set` does)
under the serialized bytes of the textual key `"a_\x7bq:1\x7d"`, and one
variant-index entry stored under the serialized bytes of the id "a". -/
def persistStateEx : PersistentStoreState ℕ ℕ ℕ where
  storage_keyspace := fun _ => none
  cache_keyspace := fun k => if k = postcardStringBytes "a_\x7bq:1\x7d" then some 3 else none
  cache_entries_keyspace := fun k => if k = postcardStringBytes "a" then some 9 else none

/-! Theorems. -/

/-- C3: when the exact `(image_id, params)` key is already present, `set`
returns `Ok` and leaves the whole cache state unchanged - the stored payload
keeps its old value, nothing is evicted and the variant index is untouched. -/
theorem set_existing_key_is_idempotent
    {P V : Type} [LinearOrder P] (s : MemoryProcessedImageCache P V)
    (image_id : ImageId) (params : P) (image : V)
    (hhave : s.have_record image_id params = true) :
    (s.set image_id params image).1 = Except.ok () ∧
    (s.set image_id params image).2 = s := by
  simp [MemoryProcessedImageCache.set, hhave]

/-- Witness for `set_existing_key_is_idempotent` at the fixture state. -/
theorem set_existing_key_is_idempotent_witness :
    (memCacheEx ImageOptionsOverflowPolicy.Rewrite).have_record "a" 0 = true ∧
    (((memCacheEx ImageOptionsOverflowPolicy.Rewrite).set "a" 0 9).1 = Except.ok () ∧
      ((memCacheEx ImageOptionsOverflowPolicy.Rewrite).set "a" 0 9).2 =
        memCacheEx ImageOptionsOverflowPolicy.Rewrite) :=
  ⟨by decide, set_existing_key_is_idempotent _ "a" 0 9 (by decide)⟩

/-- C2: with the exact key absent and the variant index at the limit, `set`
under the `Restrict` policy returns the limit-exceeded error and leaves the
cache state completely unchanged. -/
theorem restrict_overflow_rejects_and_preserves_state
    {P V : Type} [LinearOrder P] (s : MemoryProcessedImageCache P V)
    (image_id : ImageId) (params : P) (image : V)
    (habs : s.have_record image_id params = false)
    (hfull : s.records_count image_id = s.max_options_per_image)
    (hpol : s.max_options_per_image_overflow_policy = ImageOptionsOverflowPolicy.Restrict) :
    (s.set image_id params image).1 =
      Except.error "Limit exceed. No any new image formats allowed" ∧
    (s.set image_id params image).2 = s := by
  simp [MemoryProcessedImageCache.set, habs, hfull, hpol]

/-- C1: with the exact key absent and the variant index at the limit, `set`
under the `Rewrite` policy pops exactly the greatest param `p'` of the
variant index in the canonical order, drops its payload `(image_id, p')`,
inserts `(image_id, params) -> image`, adds `params` to the variant index,
returns `Ok`, and the variant index stays within the limit. -/
theorem rewrite_overflow_evicts_greatest_param
    {P V : Type} [LinearOrder P] (s : MemoryProcessedImageCache P V)
    (image_id : ImageId) (params : P) (image : V)
    (hmax : 0 < s.max_options_per_image)
    (habs : s.have_record image_id params = false)
    (hfull : s.records_count image_id = s.max_options_per_image)
    (hpol : s.max_options_per_image_overflow_policy = ImageOptionsOverflowPolicy.Rewrite) :
    ∃ p' ∈ s.getEntries image_id,
      (∀ q ∈ s.getEntries image_id, q ≤ p') ∧
      (s.set image_id params image).1 = Except.ok () ∧
      (s.set image_id params image).2.cache = (fun k =>
        if k = (image_id, params) then some image
        else if k = (image_id, p') then none
        else s.cache k) ∧
      (s.set image_id params image).2.cache_entries = (fun i =>
        if i = image_id then some (insert params ((s.getEntries image_id).erase p'))
        else s.cache_entries i) ∧
      (s.set image_id params image).2.records_count image_id ≤ s.max_options_per_image := by
  have hcard : 0 < (s.getEntries image_id).card := by
    have : s.records_count image_id = (s.getEntries image_id).card := rfl
    omega
  have hne : (s.getEntries image_id).Nonempty := Finset.card_pos.mp hcard
  have hset : s.set image_id params image =
      (Except.ok (), s._insert image_id params image true) := by
    simp [MemoryProcessedImageCache.set, habs, hfull, hpol]
  have hins : s._insert image_id params image true =
      { s with
        cache := fun k =>
          if k = (image_id, params) then some image
          else if k = (image_id, (s.getEntries image_id).max' hne) then none
          else s.cache k
        cache_entries := fun i =>
          if i = image_id then
            some (insert params
              ((s.getEntries image_id).erase ((s.getEntries image_id).max' hne)))
          else s.cache_entries i } := by
    simp only [MemoryProcessedImageCache._insert,
      dif_pos (⟨rfl, hcard⟩ : true = true ∧ 0 < (s.getEntries image_id).card),
      dif_pos (show True ∧ 0 < (s.getEntries image_id).card from ⟨trivial, hcard⟩)]
  refine ⟨(s.getEntries image_id).max' hne, Finset.max'_mem _ _,
    fun q hq => Finset.le_max' _ q hq, ?_, ?_, ?_, ?_⟩
  · rw [hset]
  · rw [hset, hins]
  · rw [hset, hins]
  · rw [hset, hins]
    have hmem : (s.getEntries image_id).max' hne ∈ s.getEntries image_id :=
      Finset.max'_mem _ _
    have herase : ((s.getEntries image_id).erase ((s.getEntries image_id).max' hne)).card =
        (s.getEntries image_id).card - 1 :=
      Finset.card_erase_of_mem hmem
    have hle : (insert params
        ((s.getEntries image_id).erase ((s.getEntries image_id).max' hne))).card ≤
        ((s.getEntries image_id).erase ((s.getEntries image_id).max' hne)).card + 1 :=
      Finset.card_insert_le _ _
    have hrc : MemoryProcessedImageCache.records_count
        { s with
          cache := fun k =>
            if k = (image_id, params) then some image
            else if k = (image_id, (s.getEntries image_id).max' hne) then none
            else s.cache k
          cache_entries := fun i =>
            if i = image_id then
              some (insert params
                ((s.getEntries image_id).erase ((s.getEntries image_id).max' hne)))
            else s.cache_entries i } image_id =
        (insert params
          ((s.getEntries image_id).erase ((s.getEntries image_id).max' hne))).card := by
      simp [MemoryProcessedImageCache.records_count, MemoryProcessedImageCache.getEntries]
    rw [hrc]
    have : s.records_count image_id = (s.getEntries image_id).card := rfl
    omega

/-- Witness for `restrict_overflow_rejects_and_preserves_state` at the fixture
state (limit 1 already reached, new params 1). -/
theorem restrict_overflow_rejects_and_preserves_state_witness :
    (memCacheEx ImageOptionsOverflowPolicy.Restrict).have_record "a" 1 = false ∧
    (memCacheEx ImageOptionsOverflowPolicy.Restrict).records_count "a" =
      (memCacheEx ImageOptionsOverflowPolicy.Restrict).max_options_per_image ∧
    (((memCacheEx ImageOptionsOverflowPolicy.Restrict).set "a" 1 9).1 =
        Except.error "Limit exceed. No any new image formats allowed" ∧
      ((memCacheEx ImageOptionsOverflowPolicy.Restrict).set "a" 1 9).2 =
        memCacheEx ImageOptionsOverflowPolicy.Restrict) :=
  ⟨by decide, by decide,
    restrict_overflow_rejects_and_preserves_state _ "a" 1 9 (by decide) (by decide) rfl⟩

/-- Witness for `rewrite_overflow_evicts_greatest_param` at the fixture state
(limit 1 reached by variant 0, new params 1 under `Rewrite`). -/
theorem rewrite_overflow_evicts_greatest_param_witness :
    0 < (memCacheEx ImageOptionsOverflowPolicy.Rewrite).max_options_per_image ∧
    ∃ p' ∈ (memCacheEx ImageOptionsOverflowPolicy.Rewrite).getEntries "a",
      (∀ q ∈ (memCacheEx ImageOptionsOverflowPolicy.Rewrite).getEntries "a", q ≤ p') ∧
      ((memCacheEx ImageOptionsOverflowPolicy.Rewrite).set "a" 1 9).1 = Except.ok () ∧
      ((memCacheEx ImageOptionsOverflowPolicy.Rewrite).set "a" 1 9).2.cache = (fun k =>
        if k = ("a", 1) then some 9
        else if k = ("a", p') then none
        else (memCacheEx ImageOptionsOverflowPolicy.Rewrite).cache k) ∧
      ((memCacheEx ImageOptionsOverflowPolicy.Rewrite).set "a" 1 9).2.cache_entries = (fun i =>
        if i = "a" then
          some (insert 1
            (((memCacheEx ImageOptionsOverflowPolicy.Rewrite).getEntries "a").erase p'))
        else (memCacheEx ImageOptionsOverflowPolicy.Rewrite).cache_entries i) ∧
      ((memCacheEx ImageOptionsOverflowPolicy.Rewrite).set "a" 1 9).2.records_count "a" ≤
        (memCacheEx ImageOptionsOverflowPolicy.Rewrite).max_options_per_image :=
  ⟨by decide,
    rewrite_overflow_evicts_greatest_param _ "a" 1 9 (by decide) (by decide) (by decide) rfl⟩

/-- C4: failing-input evaluation. `Processor::prefetch` on image "a" returns
`Ok` and writes the bytes to the original storage, but the pre-existing
derivative variant `("a", 0)` is still in the derivative cache afterwards -
`prefetch` performs no invalidation at all, contradicting the spec and the
cache code's own comment that invalidation is made via prefetch. -/
theorem prefetch_leaves_derivative_cache_untouched :
    (processorPrefetch sniffSomeEx prefetchStateEx "a" "cat.png" [1]).1 = Except.ok () ∧
    (processorPrefetch sniffSomeEx prefetchStateEx "a" "cat.png" [1]).2.storage "a" =
      some [1] ∧
    (processorPrefetch sniffSomeEx prefetchStateEx "a" "cat.png" [1]).2.cache ("a", 0) =
      some 5 := by
  refine ⟨rfl, by simp [processorPrefetch, ensureCorrectExtension, getImageFormat,
    sniffSomeEx, prefetchStateEx], rfl⟩

/-- C5: failing-input evaluation. `PersistentProcessedImageCache::remove "a"`
removes nothing at all: the stored payload key is the postcard serialization
of `"a_\x7bq:1\x7d"` (length byte 7 first) while the scan prefix is the
postcard serialization of `"a_\x7b"` (length byte 3 first), so the byte-level
prefix scan matches no stored key and the payload survives even though its
textual key does start with `"a_\x7b"`; and the variant index of "a" in the
`cache_entries` keyspace survives because the code never touches that
keyspace.  Both parts of the claim fail. -/
theorem persistent_remove_removes_nothing :
    strIsPref "a_\x7b" "a_\x7bq:1\x7d" = true ∧
    (postcardStringBytes "a_\x7b").isPrefixOf
      (postcardStringBytes "a_\x7bq:1\x7d") = false ∧
    (persistentProcessedCacheRemove persistStateEx "a").cache_keyspace
      (postcardStringBytes "a_\x7bq:1\x7d") = some 3 ∧
    (persistentProcessedCacheRemove persistStateEx "a").cache_entries_keyspace
      (postcardStringBytes "a") = some 9 := by
  refine ⟨by decide, by decide, ?_, rfl⟩
  simp only [persistentProcessedCacheRemove, removeByBytePref]
  decide

/-- C7: counterexample. An engine error on a `PersistentStore::get` read does
not produce a miss (`ret none`): the `unwrap` panics and aborts the caller. -/
theorem persistent_get_engine_error_panics_not_miss :
    persistentStoreGet (Except.error "io error" : Except String (Option ℕ)) =
      RustOutcome.panicked ∧
    persistentStoreGet (Except.error "io error" : Except String (Option ℕ)) ≠
      RustOutcome.ret (none : Option ℕ) :=
  ⟨rfl, by decide⟩

/-- C7 (amended): engine errors on `PersistentStore::get`/`exists`/`set` and on
`PersistentStorage::get` panic (aborting the operation) rather than degrading
to a miss; only `PersistentStore::remove` and `PersistentStorage::set` drop the
engine error. -/
theorem persistent_engine_error_outcomes (e : String) :
    persistentStoreGet (Except.error e : Except String (Option ℕ)) =
      RustOutcome.panicked ∧
    persistentStoreExists (Except.error e) = RustOutcome.panicked ∧
    persistentStoreSet (Except.error e) = RustOutcome.panicked ∧
    persistentStorageGet (Except.error e : Except String (Option ℕ)) =
      RustOutcome.panicked ∧
    persistentStoreRemove (Except.error e) = RustOutcome.ret () ∧
    persistentStorageSet (Except.error e) = RustOutcome.ret () :=
  ⟨rfl, rfl, rfl, rfl, rfl, rfl⟩

/-- C8: failing-input evaluation. Under the default configuration
(`STORAGE_CACHE_SIZE = 256`, `PROCESSING_CACHE_SIZE = 1024`) the in-memory
derivative cache is constructed with capacity 256 - the storage budget, not
the processing budget - contradicting the claim that its bound equals
`processing_cache_size`. -/
theorem processing_cache_capacity_uses_storage_size :
    configProcessingCacheCapacity 256 1024 = 256 ∧ (256 : ℕ) ≠ 1024 :=
  ⟨rfl, by decide⟩

/-- C6: when the original store holds bytes whose sniff fails, `Processor::get`
treats the corrupted original exactly as a storage miss - the result equals
the result with that id absent from storage - and with the upstream fetcher
disabled it returns `NotFound`; in particular no `UnsupportingExtension`
arises from that lookup. -/
theorem get_corrupted_original_falls_through
    {P V F : Type} (sniff : ImageBytes → Option F) (processFn : ImageBytes → P → V)
    (cache : ImageId × P → Option V) (storage : ImageId → Option ImageBytes)
    (file_api : Option (ImageId → Except FileApiFetchError ImageBytes))
    (image_id : ImageId) (params : P) (orig : ImageBytes)
    (hmiss : cache (image_id, params) = none)
    (hstore : storage image_id = some orig)
    (hsniff : sniff orig = none) :
    processorGet sniff processFn cache storage file_api image_id params =
      processorGet sniff processFn cache
        (fun i => if i = image_id then none else storage i) file_api image_id params ∧
    (file_api = none →
      processorGet sniff processFn cache storage file_api image_id params =
        Except.error ProcessingErrorType.NotFound) := by
  constructor
  · simp [processorGet, hmiss, hstore, hsniff]
  · intro h
    subst h
    simp [processorGet, hmiss, hstore, hsniff]

/-- Witness for `get_corrupted_original_falls_through`: storage holds the
corrupted bytes `[1]` for image "a", the derivative cache is empty and the
upstream fetcher is disabled. -/
theorem get_corrupted_original_falls_through_witness :
    cacheEmptyEx ("a", 0) = none ∧
    storageEx "a" = some [1] ∧
    sniffNoneEx [1] = none ∧
    (processorGet sniffNoneEx processFnEx cacheEmptyEx storageEx none "a" 0 =
      processorGet sniffNoneEx processFnEx cacheEmptyEx
        (fun i => if i = "a" then none else storageEx i) none "a" 0 ∧
    ((none : Option (ImageId → Except FileApiFetchError ImageBytes)) = none →
      processorGet sniffNoneEx processFnEx cacheEmptyEx storageEx none "a" 0 =
        Except.error ProcessingErrorType.NotFound)) :=
  ⟨rfl, by decide, rfl,
    get_corrupted_original_falls_through sniffNoneEx processFnEx cacheEmptyEx storageEx
      none "a" 0 [1] rfl (by decide) rfl⟩

/-- C10: in the preload handler a missing `X-API-Key` header or an undecodable
header value is treated as the empty string, authorization succeeds exactly
when the extracted string equals the configured api key, and under the default
empty `API_KEY` a request with no (or an undecodable) header is accepted. -/
theorem preload_api_key_empty_default_accepts_missing_header :
    (extractApiKey none = "" ∧ extractApiKey (some none) = "") ∧
    (∀ header server_api_key,
      preloadAuthorized header server_api_key = true ↔
        extractApiKey header = server_api_key) ∧
    (preloadAuthorized none "" = true ∧ preloadAuthorized (some none) "" = true) := by
  refine ⟨⟨rfl, rfl⟩, ?_, rfl, rfl⟩
  intro header server_api_key
  simp [preloadAuthorized]

/-- C9: for positive source dimensions and a requested target with
`1 ≤ w`, `1 ≤ h`, the differing-ratio branch of `resize` under `CropToCenter`
computes the cover size as `(round (h * ratio_src), h)` when
`ratio_src > ratio_tgt` and `(w, round (w / ratio_src))` otherwise, center-crops
with offsets `(cover.1 - w) / 2` and `(cover.2 - h) / 2` (saturating at 0), and
the output has exactly dimensions `(w, h)` whenever the saturating crop was not
needed. -/
theorem crop_to_center_cover_and_output_dims
    (src_w src_h w h : ℕ)
    (_hsw : 0 < src_w) (_hsh : 0 < src_h) (_hw : 1 ≤ w) (hh : 1 ≤ h)
    (hdiff : ¬ |((src_w : ℚ) / (src_h : ℚ)) - ((w : ℚ) / (h : ℚ))| < f64Epsilon) :
    ((((src_w : ℚ) / (src_h : ℚ)) > ((w : ℚ) / (h : ℚ))) →
      coverSize src_w src_h w h =
        (roundToU32 ((h : ℚ) * ((src_w : ℚ) / (src_h : ℚ))), h)) ∧
    ((¬ (((src_w : ℚ) / (src_h : ℚ)) > ((w : ℚ) / (h : ℚ)))) →
      coverSize src_w src_h w h =
        (w, roundToU32 ((w : ℚ) / ((src_w : ℚ) / (src_h : ℚ))))) ∧
    cropOffsets (coverSize src_w src_h w h) w h =
      (((coverSize src_w src_h w h).1 - w) / 2, ((coverSize src_w src_h w h).2 - h) / 2) ∧
    resizeDims src_w src_h (some w) (some h) (some RatioPolicy.CropToCenter) =
      cropOutputDims (coverSize src_w src_h w h).1 (coverSize src_w src_h w h).2
        (cropOffsets (coverSize src_w src_h w h) w h).1
        (cropOffsets (coverSize src_w src_h w h) w h).2 w h ∧
    (w ≤ (coverSize src_w src_h w h).1 → h ≤ (coverSize src_w src_h w h).2 →
      resizeDims src_w src_h (some w) (some h) (some RatioPolicy.CropToCenter) = (w, h)) := by
  have hres : resizeDims src_w src_h (some w) (some h) (some RatioPolicy.CropToCenter) =
      cropOutputDims (coverSize src_w src_h w h).1 (coverSize src_w src_h w h).2
        (cropOffsets (coverSize src_w src_h w h) w h).1
        (cropOffsets (coverSize src_w src_h w h) w h).2 w h := by
    simp only [resizeDims, Option.getD_some, if_neg hdiff]
  refine ⟨?_, ?_, rfl, hres, ?_⟩
  · intro hgt
    simp only [coverSize, if_pos hgt]
  · intro hle
    simp only [coverSize, if_neg hle]
  · intro hcw hch
    rw [hres]
    rcases hcover : coverSize src_w src_h w h with ⟨c1, c2⟩
    rw [hcover] at hcw hch
    simp only [cropOutputDims, cropOffsets, hcover, Prod.mk.injEq]
    dsimp only at hcw hch
    constructor <;> omega

/-- Witness for `crop_to_center_cover_and_output_dims`: a 4x2 source resized to
a 2x2 target (source ratio 2, target ratio 1). -/
theorem crop_to_center_cover_and_output_dims_witness :
    (¬ |((4 : ℚ) / (2 : ℚ)) - ((2 : ℚ) / (2 : ℚ))| < f64Epsilon) ∧
    (((((4 : ℚ) / (2 : ℚ)) > ((2 : ℚ) / (2 : ℚ))) →
      coverSize 4 2 2 2 = (roundToU32 ((2 : ℚ) * ((4 : ℚ) / (2 : ℚ))), 2)) ∧
    ((¬ (((4 : ℚ) / (2 : ℚ)) > ((2 : ℚ) / (2 : ℚ)))) →
      coverSize 4 2 2 2 = (2, roundToU32 ((2 : ℚ) / ((4 : ℚ) / (2 : ℚ))))) ∧
    cropOffsets (coverSize 4 2 2 2) 2 2 =
      (((coverSize 4 2 2 2).1 - 2) / 2, ((coverSize 4 2 2 2).2 - 2) / 2) ∧
    resizeDims 4 2 (some 2) (some 2) (some RatioPolicy.CropToCenter) =
      cropOutputDims (coverSize 4 2 2 2).1 (coverSize 4 2 2 2).2
        (cropOffsets (coverSize 4 2 2 2) 2 2).1
        (cropOffsets (coverSize 4 2 2 2) 2 2).2 2 2 ∧
    (2 ≤ (coverSize 4 2 2 2).1 → 2 ≤ (coverSize 4 2 2 2).2 →
      resizeDims 4 2 (some 2) (some 2) (some RatioPolicy.CropToCenter) = (2, 2))) :=
  ⟨by norm_num [f64Epsilon],
    crop_to_center_cover_and_output_dims 4 2 2 2 (by decide) (by decide) (by decide)
      (by decide) (by norm_num [f64Epsilon])⟩

/-- Witness for `persistent_engine_error_outcomes` at a concrete engine error. -/
theorem persistent_engine_error_outcomes_witness :
    persistentStoreGet (Except.error "disk failure" : Except String (Option ℕ)) =
      RustOutcome.panicked ∧
    persistentStoreExists (Except.error "disk failure") = RustOutcome.panicked ∧
    persistentStoreSet (Except.error "disk failure") = RustOutcome.panicked ∧
    persistentStorageGet (Except.error "disk failure" : Except String (Option ℕ)) =
      RustOutcome.panicked ∧
    persistentStoreRemove (Except.error "disk failure") = RustOutcome.ret () ∧
    persistentStorageSet (Except.error "disk failure") = RustOutcome.ret () :=
  persistent_engine_error_outcomes "disk failure"
